import Mathlib

/-!
# ServiceExport controller

A shallow embedding of
`pilot/pkg/serviceregistry/kube/controller/serviceexportcontroller.go`.

The controller is stateful: it owns the flag `crdExists`, it talks to the MCS API client
(create and delete of ServiceExport objects) and it writes log lines.  The embedding passes
that state explicitly (`State`), keeps the API client abstract (`Client`, any store, any
answers) and records every call issued to the client in `State.calls`, so that statements such
as "no create call is issued" are statements about a value.
-/

namespace Controller

/-! ## Errors (k8s.io/apimachinery/pkg/api/errors) -/

/-- Status reasons of the Kubernetes API machinery (metav1.StatusReason). -/
inductive StatusReason
  | Unknown
  | Unauthorized
  | Forbidden
  | NotFound
  | AlreadyExists
  | Conflict
  | Gone
  | Invalid
  | ServerTimeout
  | Timeout
  | TooManyRequests
  | BadRequest
  | MethodNotAllowed
  | NotAcceptable
  | RequestEntityTooLarge
  | UnsupportedMediaType
  | InternalError
  | Expired
  | ServiceUnavailable
  deriving DecidableEq, Repr

/-- A non-nil Go error value: either an API status error, which carries a reason, or any other
error (network failure, fmt.Errorf, ...).  A Go value of type error is `Option GoError`,
with `none` for nil. -/
inductive GoError
  | status (reason : StatusReason) (message : String)
  | plain (message : String)
  deriving DecidableEq, Repr

/-- The function errors.ReasonForError: the reason of a status error, Unknown otherwise. -/
def ReasonForError : GoError → StatusReason
  | .status reason _ => reason
  | .plain _ => .Unknown

/-- The function errors.IsAlreadyExists. -/
def IsAlreadyExists (err : GoError) : Bool :=
  ReasonForError err == .AlreadyExists

/-- The function errors.IsNotFound.  On a create call this is the answer of an API server on
which the ServiceExport resource type is not registered. -/
def IsNotFound (err : GoError) : Bool :=
  ReasonForError err == .NotFound

/-! ## Data model -/

/-- The part of v1.Service the controller reads: the identity, and the labels as the metadata
the exclusion policy may look at. -/
structure Service where
  Namespace : String
  Name : String
  Labels : List (String × String)
  deriving DecidableEq, Repr

/-- The object v1alpha1.ServiceExport: the controller only ever sets its identity. -/
structure ServiceExport where
  Namespace : String
  Name : String
  deriving DecidableEq, Repr

/-- A call issued to the MCS API client. -/
inductive Call
  | create (ns : String) (obj : ServiceExport)
  | delete (ns : String) (name : String)
  deriving DecidableEq, Repr

/-- The MCS API client `client.MulticlusterV1alpha1().ServiceExports(ns)` over a store of type
`σ`: each call gets the store, answers with a Go error (nil is `none`) and leaves a store. -/
structure Client (σ : Type) where
  Create : σ → String → ServiceExport → Option GoError × σ
  Delete : σ → String → String → Option GoError × σ

/-- The immutable collaborators of the struct ServiceExportController: the API client and the
exclusion policy `environment.IsServiceClusterLocal`. -/
structure ServiceExportController (σ : Type) where
  client : Client σ
  IsServiceClusterLocal : Service → Bool

/-- The mutable state: the field `crdExists` of the controller, the store behind the client,
the calls issued to the client so far and the error log. -/
structure State (σ : Type) where
  crdExists : Bool
  store : σ
  calls : List Call
  logs : List String

/-- The message of the log.Errorf call in createServiceExportIfNotPresent. -/
def crdNotFoundMessage : String :=
  "ServiceExport CRD Not found, shutting down MCS ServiceExport sync. Please add the CRD then restart the istiod deployment"

/-! ## Reconciliation (lines 95-135) -/

/-- The method createServiceExportIfNotPresent (lines 109-125). -/
def createServiceExportIfNotPresent {σ : Type} (sc : ServiceExportController σ)
    (service : Service) (st : State σ) : Option GoError × State σ :=
  let serviceExport : ServiceExport := { Namespace := service.Namespace, Name := service.Name }
  let r := sc.client.Create st.store service.Namespace serviceExport
  let st1 : State σ :=
    { st with store := r.2, calls := st.calls ++ [Call.create service.Namespace serviceExport] }
  let err : Option GoError :=
    match r.1 with
    | some e => if IsAlreadyExists e then none else some e
    | none => none
  match err with
  | some e =>
    if IsNotFound e then
      (err, { st1 with crdExists := false, logs := st1.logs ++ [crdNotFoundMessage] })
    else
      (err, st1)
  | none => (err, st1)

/-- The method deleteServiceExportIfPresent (lines 127-135). -/
def deleteServiceExportIfPresent {σ : Type} (sc : ServiceExportController σ)
    (service : Service) (st : State σ) : Option GoError × State σ :=
  let r := sc.client.Delete st.store service.Namespace service.Name
  let st1 : State σ :=
    { st with store := r.2, calls := st.calls ++ [Call.delete service.Namespace service.Name] }
  match r.1 with
  | some e => if IsNotFound e then (none, st1) else (some e, st1)
  | none => (none, st1)

/-- The method handleNewService (lines 95-103). -/
def handleNewService {σ : Type} (sc : ServiceExportController σ)
    (obj : Service) (st : State σ) : Option GoError × State σ :=
  if !st.crdExists then
    (none, st)
  else if sc.IsServiceClusterLocal obj then
    (none, st)
  else
    createServiceExportIfNotPresent sc obj st

/-- The method handleDeletedService (lines 105-107). -/
def handleDeletedService {σ : Type} (sc : ServiceExportController σ)
    (obj : Service) (st : State σ) : Option GoError × State σ :=
  deleteServiceExportIfPresent sc obj st

/-- The answer of the create call the add work item issues for `service` from state `st`. -/
def createAnswer {σ : Type} (sc : ServiceExportController σ) (service : Service)
    (st : State σ) : Option GoError × σ :=
  sc.client.Create st.store service.Namespace
    { Namespace := service.Namespace, Name := service.Name }

/-- The create call the add work item issues for `service`. -/
def createCall (service : Service) : Call :=
  Call.create service.Namespace { Namespace := service.Namespace, Name := service.Name }

/-- The answer of the delete call the delete work item issues for `service` from `st`. -/
def deleteAnswer {σ : Type} (sc : ServiceExportController σ) (service : Service)
    (st : State σ) : Option GoError × σ :=
  sc.client.Delete st.store service.Namespace service.Name

/-! ## Work items and the event queue (lines 66-84, 137-142) -/

/-- A unit of work of the queue (queue.Task, a Go closure `func() error`): it runs against the
state and returns a Go error. -/
abbrev Task (σ : Type) : Type := State σ → Option GoError × State σ

/-- Modelled from the spec: the queue of package istio.io/istio/pkg/queue is not among the
sources.  The pending work items, the oldest first ("a single-consumer, ordered, retrying work
queue"). -/
abbrev Queue (σ : Type) : Type := List (Task σ)

/-- Modelled from the spec: the method Push of the queue, "push(item) appends a unit of
work". -/
def Queue.Push {σ : Type} (q : Queue σ) (task : Task σ) : Queue σ :=
  q ++ [task]

/-- Modelled from the spec: the worker of the queue (method Run).  "A single background worker
pulls items in FIFO order and executes them.  If execution returns a failure, the worker
requeues the same item rather than advancing; retries continue until the process is stopped or
the item succeeds."  The first argument is the number of executions the worker performs before
the stop signal fires.  The result is the error returned by each execution, in order, the
items still pending and the state reached. -/
def Queue.Run {σ : Type} : Nat → Queue σ → State σ → List (Option GoError) × Queue σ × State σ
  | 0, q, st => ([], q, st)
  | _ + 1, [], st => ([], [], st)
  | n + 1, task :: rest, st =>
    match task st with
    | (none, st1) =>
      let r := Queue.Run n rest st1
      (none :: r.1, r.2)
    | (some e, st1) =>
      let r := Queue.Run n (task :: rest) st1
      (some e :: r.1, r.2)

/-- The closure pushed by onServiceAdd (lines 67-73).  The helper convertToService of the
package is not among the sources and is the parameter `convertToService`; `Obj` stands for the
values of the empty interface type delivered by the informer. -/
def newServiceTask {σ Obj : Type} (sc : ServiceExportController σ)
    (convertToService : Obj → Except GoError Service) (obj : Obj) : Task σ :=
  fun st =>
    match convertToService obj with
    | .error err => (some err, st)
    | .ok serviceObj => handleNewService sc serviceObj st

/-- The closure pushed by onServiceDelete (lines 77-83). -/
def deletedServiceTask {σ Obj : Type} (sc : ServiceExportController σ)
    (convertToService : Obj → Except GoError Service) (obj : Obj) : Task σ :=
  fun st =>
    match convertToService obj with
    | .error err => (some err, st)
    | .ok serviceObj => handleDeletedService sc serviceObj st

/-- The method onServiceAdd (lines 66-74), on the queue of the controller. -/
def onServiceAdd {σ Obj : Type} (sc : ServiceExportController σ)
    (convertToService : Obj → Except GoError Service) (queue : Queue σ) (obj : Obj) : Queue σ :=
  queue.Push (newServiceTask sc convertToService obj)

/-- The method onServiceDelete (lines 76-84), on the queue of the controller. -/
def onServiceDelete {σ Obj : Type} (sc : ServiceExportController σ)
    (convertToService : Obj → Except GoError Service) (queue : Queue σ) (obj : Obj) : Queue σ :=
  queue.Push (deletedServiceTask sc convertToService obj)

/-- The method doInitialFullSync (lines 137-142); `services` is the answer of
`serviceInformer.GetStore().List()`. -/
def doInitialFullSync {σ Obj : Type} (sc : ServiceExportController σ)
    (convertToService : Obj → Except GoError Service) (services : List Obj) (queue : Queue σ) :
    Queue σ :=
  services.foldl (fun q service => onServiceAdd sc convertToService q service) queue

/-! ## Sequences of work items -/

/-- A reconciliation decision for a service: the body of an add or of a delete work item. -/
inductive WorkItem
  | add (service : Service)
  | delete (service : Service)
  deriving DecidableEq, Repr

/-- One execution of a work item, with the state before and after it and the error returned. -/
structure Step (σ : Type) where
  item : WorkItem
  before : State σ
  err : Option GoError
  after : State σ

/-- The handler a work item runs. -/
def WorkItem.exec {σ : Type} (sc : ServiceExportController σ) :
    WorkItem → State σ → Option GoError × State σ
  | .add service, st => handleNewService sc service st
  | .delete service, st => handleDeletedService sc service st

/-- The executions of a list of work items one after the other, each from the state the
previous one left. -/
def execAll {σ : Type} (sc : ServiceExportController σ) : List WorkItem → State σ → List (Step σ)
  | [], _ => []
  | w :: ws, st =>
    let r := w.exec sc st
    { item := w, before := st, err := r.1, after := r.2 } :: execAll sc ws r.2

/-- The state after a list of work items. -/
def finalState {σ : Type} (sc : ServiceExportController σ) : List WorkItem → State σ → State σ
  | [], st => st
  | w :: ws, st => finalState sc ws (w.exec sc st).2

/-- The delete call a work item issues, if it is a delete item. -/
def WorkItem.deleteCall : WorkItem → Option Call
  | .add _ => none
  | .delete service => some (Call.delete service.Namespace service.Name)

/-- A notification of the informer about one object. -/
inductive Notification
  | added
  | deleted
  deriving DecidableEq, Repr

/-- The handler the informer invokes for a notification about `obj` (lines 58-61). -/
def notify {σ Obj : Type} (sc : ServiceExportController σ)
    (convertToService : Obj → Except GoError Service) (obj : Obj) (queue : Queue σ) :
    Notification → Queue σ
  | .added => onServiceAdd sc convertToService queue obj
  | .deleted => onServiceDelete sc convertToService queue obj

/-- The work item pushed for a notification about an object: the closure of onServiceAdd or
of onServiceDelete. -/
def Notification.task {σ Obj : Type} (sc : ServiceExportController σ)
    (convertToService : Obj → Except GoError Service) (obj : Obj) : Notification → Task σ
  | .added => newServiceTask sc convertToService obj
  | .deleted => deletedServiceTask sc convertToService obj

/-- The state after each task of a queue has been executed once, in order. -/
def runEach {σ : Type} (q : Queue σ) (st : State σ) : State σ :=
  q.foldl (fun s task => (task s).2) st

/-! ## A store with create-if-absent and delete-if-present semantics -/

/-- The identity (namespace, name) of an export record. -/
abbrev Key : Type := String × String

/-- A store of export records keyed by identity: create of an existing record answers
AlreadyExists, delete of a missing record answers NotFound, and there is no other failure. -/
def keyedStore : Client (List Key) where
  Create := fun store ns obj =>
    if (ns, obj.Name) ∈ store then
      (some (GoError.status .AlreadyExists "already exists"), store)
    else
      (none, store ++ [(ns, obj.Name)])
  Delete := fun store ns name =>
    if (ns, name) ∈ store then
      (none, store.filter (fun k => k ≠ (ns, name)))
    else
      (some (GoError.status .NotFound "not found"), store)

/-- A store that accepts every create and every delete and only counts them. -/
def acceptingStore : Client Nat where
  Create := fun store _ _ => (none, store + 1)
  Delete := fun store _ _ => (none, store)

/-- A client that answers every call with the same error, over a trivial store. -/
def failingClient (err : GoError) : Client Unit where
  Create := fun store _ _ => (some err, store)
  Delete := fun store _ _ => (some err, store)

/-! ## Concrete inputs -/

/-- The service (a, svc1) of the scenario of the specification. -/
def svc1 : Service := { Namespace := "a", Name := "svc1", Labels := [] }

/-- A service of namespace kube-system, excluded by `localPolicy`. -/
def kubeDns : Service := { Namespace := "kube-system", Name := "kube-dns", Labels := [] }

/-- An exclusion policy: the services of namespace kube-system are cluster local. -/
def localPolicy (service : Service) : Bool :=
  service.Namespace == "kube-system"

/-- The conversion of an object that is a service. -/
def convertOk (obj : Service) : Except GoError Service :=
  .ok obj

/-- The answer of an API server without the ServiceExport resource type. -/
def errNotFound : GoError :=
  GoError.status .NotFound "the server could not find the requested resource"

/-- The answer of an API server that already holds the object. -/
def errAlreadyExists : GoError :=
  GoError.status .AlreadyExists "serviceexports svc1 already exists"

/-- A transient failure. -/
def errTimeout : GoError :=
  GoError.status .ServerTimeout "timeout"

/-- The state of a controller just built by NewServiceExportController (crdExists is true,
line 54) over a given store. -/
def initialState {σ : Type} (store : σ) : State σ :=
  { crdExists := true, store := store, calls := [], logs := [] }

/-! ## The add work item -/

theorem handleNewService_closed {σ : Type} (sc : ServiceExportController σ) (service : Service)
    (st : State σ) (hgate : st.crdExists = false) :
    handleNewService sc service st = (none, st) := by
  simp [handleNewService, hgate]

theorem handleNewService_open {σ : Type} (sc : ServiceExportController σ) (service : Service)
    (st : State σ) (hgate : st.crdExists = true)
    (hlocal : sc.IsServiceClusterLocal service = false) :
    handleNewService sc service st = createServiceExportIfNotPresent sc service st := by
  simp [handleNewService, hgate, hlocal]

theorem handleDeletedService_state {σ : Type} (sc : ServiceExportController σ)
    (service : Service) (st : State σ) :
    (handleDeletedService sc service st).2 =
      { crdExists := st.crdExists
        store := (deleteAnswer sc service st).2
        calls := st.calls ++ [Call.delete service.Namespace service.Name]
        logs := st.logs } := by
  rcases h : (sc.client.Delete st.store service.Namespace service.Name).1 with _ | e
  · simp [handleDeletedService, deleteServiceExportIfPresent, deleteAnswer, h]
  · by_cases hnf : IsNotFound e = true <;>
      simp [handleDeletedService, deleteServiceExportIfPresent, deleteAnswer, h, hnf]

/-- Claim C1, as the code has it: for a service that is not excluded, with the gate open, a
create call that fails with NotFound (resource type not registered) makes the add work item
close the gate, log the condition, and return that same error to the queue. -/
theorem C1_not_registered_closes_gate_and_returns_error {σ : Type}
    (sc : ServiceExportController σ) (service : Service) (st : State σ) (e : GoError)
    (hgate : st.crdExists = true) (hlocal : sc.IsServiceClusterLocal service = false)
    (hanswer : (createAnswer sc service st).1 = some e) (hnotFound : IsNotFound e = true) :
    handleNewService sc service st =
      (some e,
        { crdExists := false
          store := (createAnswer sc service st).2
          calls := st.calls ++ [createCall service]
          logs := st.logs ++ [crdNotFoundMessage] }) := by
  have hae : IsAlreadyExists e = false := by
    cases e <;> simp_all [IsAlreadyExists, IsNotFound, ReasonForError]
  rw [handleNewService_open sc service st hgate hlocal]
  simp only [createAnswer] at hanswer
  simp [createServiceExportIfNotPresent, createAnswer, createCall, hanswer, hae, hnotFound]

/-- Witness of C1 (amended): the service (a, svc1) against a client that answers NotFound. -/
theorem C1_not_registered_closes_gate_and_returns_error_witness :
    handleNewService ⟨failingClient errNotFound, localPolicy⟩ svc1 (initialState ()) =
      (some errNotFound,
        { crdExists := false
          store := (createAnswer ⟨failingClient errNotFound, localPolicy⟩ svc1
            (initialState ())).2
          calls := (initialState ()).calls ++ [createCall svc1]
          logs := (initialState ()).logs ++ [crdNotFoundMessage] }) :=
  C1_not_registered_closes_gate_and_returns_error ⟨failingClient errNotFound, localPolicy⟩ svc1
    (initialState ()) errNotFound rfl (by decide) rfl (by decide)

/-- Counterexample to claim C1 as stated: for the service (a, svc1), not excluded, with the
gate open and a create call that fails with NotFound, the gate closes but the add work item
does not return success: it returns the NotFound error. -/
theorem C1_counterexample :
    localPolicy svc1 = false ∧
      (initialState ()).crdExists = true ∧
      (createAnswer ⟨failingClient errNotFound, localPolicy⟩ svc1 (initialState ())).1
        = some errNotFound ∧
      IsNotFound errNotFound = true ∧
      (handleNewService ⟨failingClient errNotFound, localPolicy⟩ svc1
        (initialState ())).2.crdExists = false ∧
      (handleNewService ⟨failingClient errNotFound, localPolicy⟩ svc1 (initialState ())).1
        ≠ none := by
  decide

/-- Claim C2: for a service that is not excluded, with the gate open, a create call that fails
with AlreadyExists makes the add work item return success and leave the gate open. -/
theorem C2_already_exists_is_success {σ : Type}
    (sc : ServiceExportController σ) (service : Service) (st : State σ) (e : GoError)
    (hgate : st.crdExists = true) (hlocal : sc.IsServiceClusterLocal service = false)
    (hanswer : (createAnswer sc service st).1 = some e)
    (halready : IsAlreadyExists e = true) :
    (handleNewService sc service st).1 = none ∧
      (handleNewService sc service st).2.crdExists = true ∧
      (handleNewService sc service st).2.calls = st.calls ++ [createCall service] := by
  rw [handleNewService_open sc service st hgate hlocal]
  simp only [createAnswer] at hanswer
  simp [createServiceExportIfNotPresent, createCall, hanswer, halready, hgate]

/-- Witness of C2: the service (a, svc1) against a client that answers AlreadyExists. -/
theorem C2_already_exists_is_success_witness :
    (handleNewService ⟨failingClient errAlreadyExists, localPolicy⟩ svc1 (initialState ())).1
        = none ∧
      (handleNewService ⟨failingClient errAlreadyExists, localPolicy⟩ svc1
        (initialState ())).2.crdExists = true ∧
      (handleNewService ⟨failingClient errAlreadyExists, localPolicy⟩ svc1
        (initialState ())).2.calls = (initialState ()).calls ++ [createCall svc1] :=
  C2_already_exists_is_success ⟨failingClient errAlreadyExists, localPolicy⟩ svc1
    (initialState ()) errAlreadyExists rfl (by decide) rfl (by decide)

/-- Claim C3: for a service that matches the exclusion policy, whatever the gate, the add work
item returns success and leaves the whole state as it was: no call is issued to the store and
the gate is unchanged. -/
theorem C3_excluded_service_is_skipped {σ : Type}
    (sc : ServiceExportController σ) (service : Service) (st : State σ)
    (hlocal : sc.IsServiceClusterLocal service = true) :
    handleNewService sc service st = (none, st) ∧
      (handleNewService sc service st).2.calls = st.calls ∧
      (handleNewService sc service st).2.crdExists = st.crdExists := by
  have h : handleNewService sc service st = (none, st) := by
    cases hgate : st.crdExists <;> simp [handleNewService, hgate, hlocal]
  simp [h]

/-- Witness of C3: the excluded service kube-dns, gate open, against the keyed store. -/
theorem C3_excluded_service_is_skipped_witness :
    handleNewService ⟨keyedStore, localPolicy⟩ kubeDns (initialState [])
        = (none, initialState []) ∧
      (handleNewService ⟨keyedStore, localPolicy⟩ kubeDns (initialState [])).2.calls
        = (initialState ([] : List Key)).calls ∧
      (handleNewService ⟨keyedStore, localPolicy⟩ kubeDns (initialState [])).2.crdExists
        = (initialState ([] : List Key)).crdExists :=
  C3_excluded_service_is_skipped ⟨keyedStore, localPolicy⟩ kubeDns (initialState [])
    (by decide)

/-! ## The delete work item -/

/-- Claim C5: for every service, gate state and exclusion status, the delete work item issues
exactly one call to the store, the delete call with identity (Namespace, Name) of the service,
and does not change the gate. -/
theorem C5_delete_issues_one_delete_call {σ : Type}
    (sc : ServiceExportController σ) (service : Service) (st : State σ) :
    (handleDeletedService sc service st).2.calls
        = st.calls ++ [Call.delete service.Namespace service.Name] ∧
      (handleDeletedService sc service st).2.crdExists = st.crdExists := by
  rw [handleDeletedService_state]
  exact ⟨rfl, rfl⟩

/-- Claim C6: the delete work item returns success exactly when the delete call of the store
succeeded or failed with NotFound, and it returns every other failure of the store as it
is. -/
theorem C6_delete_result {σ : Type}
    (sc : ServiceExportController σ) (service : Service) (st : State σ) :
    ((handleDeletedService sc service st).1 = none ↔
        ((deleteAnswer sc service st).1 = none ∨
          ∃ e, (deleteAnswer sc service st).1 = some e ∧ IsNotFound e = true)) ∧
      (∀ e, (deleteAnswer sc service st).1 = some e → IsNotFound e = false →
        (handleDeletedService sc service st).1 = some e) := by
  rcases h : (sc.client.Delete st.store service.Namespace service.Name).1 with _ | e
  · simp [handleDeletedService, deleteServiceExportIfPresent, deleteAnswer, h]
  · by_cases hnf : IsNotFound e = true <;>
      simp [handleDeletedService, deleteServiceExportIfPresent, deleteAnswer, h, hnf]

/-! ## Other failures of the create call -/

/-- Claim C7: for a service that is not excluded, with the gate open, a create call that fails
with an error that is neither AlreadyExists nor NotFound makes the add work item return that
same error and leave the gate open. -/
theorem C7_other_create_failure_is_returned {σ : Type}
    (sc : ServiceExportController σ) (service : Service) (st : State σ) (e : GoError)
    (hgate : st.crdExists = true) (hlocal : sc.IsServiceClusterLocal service = false)
    (hanswer : (createAnswer sc service st).1 = some e)
    (halready : IsAlreadyExists e = false) (hnotFound : IsNotFound e = false) :
    (handleNewService sc service st).1 = some e ∧
      (handleNewService sc service st).2.crdExists = true := by
  rw [handleNewService_open sc service st hgate hlocal]
  simp only [createAnswer] at hanswer
  simp [createServiceExportIfNotPresent, hanswer, halready, hnotFound, hgate]

/-- Witness of C7: the service (a, svc1) against a client that answers ServerTimeout. -/
theorem C7_other_create_failure_is_returned_witness :
    (handleNewService ⟨failingClient errTimeout, localPolicy⟩ svc1 (initialState ())).1
        = some errTimeout ∧
      (handleNewService ⟨failingClient errTimeout, localPolicy⟩ svc1
        (initialState ())).2.crdExists = true :=
  C7_other_create_failure_is_returned ⟨failingClient errTimeout, localPolicy⟩ svc1
    (initialState ()) errTimeout rfl (by decide) rfl (by decide) (by decide)

/-- Witness of C6: a delete call that fails with ServerTimeout is returned as it is. -/
theorem C6_delete_result_witness :
    (handleDeletedService ⟨failingClient errTimeout, localPolicy⟩ svc1 (initialState ())).1
      = some errTimeout :=
  (C6_delete_result ⟨failingClient errTimeout, localPolicy⟩ svc1 (initialState ())).2
    errTimeout rfl (by decide)

/-! ## Gate latching -/

theorem exec_closed {σ : Type} (sc : ServiceExportController σ) (w : WorkItem) (st : State σ)
    (hgate : st.crdExists = false) :
    (w.exec sc st).2.crdExists = false ∧
      (w.exec sc st).2.calls = st.calls ++ (w.deleteCall).toList ∧
      (∀ s, w = .add s → (w.exec sc st).1 = none ∧ (w.exec sc st).2 = st) := by
  cases w with
  | add s =>
    simp [WorkItem.exec, WorkItem.deleteCall, handleNewService_closed sc s st hgate, hgate]
  | delete s =>
    simp [WorkItem.exec, WorkItem.deleteCall, handleDeletedService_state, hgate]

theorem execAll_closed {σ : Type} (sc : ServiceExportController σ) (items : List WorkItem) :
    ∀ st : State σ, st.crdExists = false →
      (∀ step ∈ execAll sc items st,
        step.before.crdExists = false ∧ step.after.crdExists = false ∧
          (∀ s, step.item = .add s → step.err = none ∧ step.after = step.before)) ∧
      (finalState sc items st).crdExists = false ∧
      (finalState sc items st).calls = st.calls ++ items.filterMap WorkItem.deleteCall := by
  induction items with
  | nil => intro st hgate; simp [execAll, finalState, hgate]
  | cons w ws ih =>
    intro st hgate
    obtain ⟨h1, h2, h3⟩ := exec_closed sc w st hgate
    obtain ⟨i1, i2, i3⟩ := ih (w.exec sc st).2 h1
    refine ⟨?_, ?_, ?_⟩
    · intro step hstep
      simp only [execAll, List.mem_cons] at hstep
      rcases hstep with rfl | hstep
      · exact ⟨hgate, h1, h3⟩
      · exact i1 step hstep
    · simpa [finalState] using i2
    · rw [finalState, i3, h2]
      cases hd : w.deleteCall <;> simp [List.filterMap_cons, hd]

/-- Claim C4 (gate latching): once a create call has answered NotFound (resource type not
registered) to an add work item, then for every list of add and delete work items executed
afterwards, against any client and so any answers of the store, the gate is closed before and
after each of them, each add work item returns success and changes nothing (it issues no
call), and the calls issued are exactly the delete calls of the delete items, in order. -/
theorem C4_gate_latches {σ : Type}
    (sc : ServiceExportController σ) (service : Service) (st : State σ) (e : GoError)
    (hgate : st.crdExists = true) (hlocal : sc.IsServiceClusterLocal service = false)
    (hanswer : (createAnswer sc service st).1 = some e) (hnotFound : IsNotFound e = true)
    (items : List WorkItem) :
    (∀ step ∈ execAll sc items (handleNewService sc service st).2,
        step.before.crdExists = false ∧ step.after.crdExists = false ∧
          (∀ s, step.item = .add s → step.err = none ∧ step.after = step.before)) ∧
      (finalState sc items (handleNewService sc service st).2).crdExists = false ∧
      (finalState sc items (handleNewService sc service st).2).calls
        = (handleNewService sc service st).2.calls ++ items.filterMap WorkItem.deleteCall := by
  have hae : IsAlreadyExists e = false := by
    cases e <;> simp_all [IsAlreadyExists, IsNotFound, ReasonForError]
  apply execAll_closed
  rw [handleNewService_open sc service st hgate hlocal]
  simp only [createAnswer] at hanswer
  simp [createServiceExportIfNotPresent, hanswer, hae, hnotFound]

/-- Witness of C4: after NotFound for (a, svc1), an add for kube-dns, a delete for (a, svc1)
and another add for (a, svc1). -/
theorem C4_gate_latches_witness :
    (∀ step ∈ execAll ⟨failingClient errNotFound, localPolicy⟩
          [.add kubeDns, .delete svc1, .add svc1]
          (handleNewService ⟨failingClient errNotFound, localPolicy⟩ svc1 (initialState ())).2,
        step.before.crdExists = false ∧ step.after.crdExists = false ∧
          (∀ s, step.item = .add s → step.err = none ∧ step.after = step.before)) ∧
      (finalState ⟨failingClient errNotFound, localPolicy⟩
          [.add kubeDns, .delete svc1, .add svc1]
          (handleNewService ⟨failingClient errNotFound, localPolicy⟩ svc1
            (initialState ())).2).crdExists = false ∧
      (finalState ⟨failingClient errNotFound, localPolicy⟩
          [.add kubeDns, .delete svc1, .add svc1]
          (handleNewService ⟨failingClient errNotFound, localPolicy⟩ svc1
            (initialState ())).2).calls
        = (handleNewService ⟨failingClient errNotFound, localPolicy⟩ svc1
            (initialState ())).2.calls
          ++ [WorkItem.add kubeDns, .delete svc1, .add svc1].filterMap WorkItem.deleteCall :=
  C4_gate_latches ⟨failingClient errNotFound, localPolicy⟩ svc1 (initialState ()) errNotFound
    rfl (by decide) rfl (by decide) [.add kubeDns, .delete svc1, .add svc1]

/-! ## The retry after NotFound -/

theorem Queue.Run_nil {σ : Type} (n : Nat) (st : State σ) :
    Queue.Run n ([] : Queue σ) st = ([], [], st) := by
  cases n <;> rfl

/-- Claim C10: for a service that is not excluded, if its add work item, executed with the gate
open, made a create call that failed with NotFound, then executing the same work item again
issues no call, changes nothing and returns success.  Hence the queue, given at least two
executions, runs the item exactly twice (the failure and one retry), is then empty, and exactly
one create call has been issued. -/
theorem C10_retry_is_a_no_op {σ Obj : Type}
    (sc : ServiceExportController σ) (convertToService : Obj → Except GoError Service)
    (obj : Obj) (service : Service) (st : State σ) (e : GoError)
    (hconv : convertToService obj = .ok service)
    (hgate : st.crdExists = true) (hlocal : sc.IsServiceClusterLocal service = false)
    (hanswer : (createAnswer sc service st).1 = some e) (hnotFound : IsNotFound e = true) :
    handleNewService sc service (handleNewService sc service st).2
        = (none, (handleNewService sc service st).2) ∧
      (handleNewService sc service st).2.calls = st.calls ++ [createCall service] ∧
      ∀ n, Queue.Run (n + 2) (onServiceAdd sc convertToService [] obj) st
        = ([some e, none], [], (handleNewService sc service st).2) := by
  have hae : IsAlreadyExists e = false := by
    cases e <;> simp_all [IsAlreadyExists, IsNotFound, ReasonForError]
  have hfirst : handleNewService sc service st =
      (some e,
        { crdExists := false
          store := (createAnswer sc service st).2
          calls := st.calls ++ [createCall service]
          logs := st.logs ++ [crdNotFoundMessage] }) := by
    rw [handleNewService_open sc service st hgate hlocal]
    simp only [createAnswer] at hanswer
    simp [createServiceExportIfNotPresent, createAnswer, createCall, hanswer, hae, hnotFound]
  have hsecond : handleNewService sc service
      { crdExists := false
        store := (createAnswer sc service st).2
        calls := st.calls ++ [createCall service]
        logs := st.logs ++ [crdNotFoundMessage] }
      = (none,
        { crdExists := false
          store := (createAnswer sc service st).2
          calls := st.calls ++ [createCall service]
          logs := st.logs ++ [crdNotFoundMessage] }) :=
    handleNewService_closed sc service _ rfl
  have htask : ∀ s : State σ, newServiceTask sc convertToService obj s
      = handleNewService sc service s := by
    intro s; simp [newServiceTask, hconv]
  rw [hfirst]
  refine ⟨hsecond, rfl, ?_⟩
  intro n
  simp only [onServiceAdd, Queue.Push, List.nil_append, Queue.Run, htask, hfirst, hsecond,
    Queue.Run_nil]

/-- Witness of C10: the service (a, svc1) against a client that answers NotFound. -/
theorem C10_retry_is_a_no_op_witness :
    handleNewService ⟨failingClient errNotFound, localPolicy⟩ svc1
        (handleNewService ⟨failingClient errNotFound, localPolicy⟩ svc1 (initialState ())).2
        = (none,
          (handleNewService ⟨failingClient errNotFound, localPolicy⟩ svc1
            (initialState ())).2) ∧
      (handleNewService ⟨failingClient errNotFound, localPolicy⟩ svc1
        (initialState ())).2.calls = (initialState ()).calls ++ [createCall svc1] ∧
      ∀ n, Queue.Run (n + 2)
          (onServiceAdd ⟨failingClient errNotFound, localPolicy⟩ convertOk [] svc1)
          (initialState ())
        = ([some errNotFound, none], [],
          (handleNewService ⟨failingClient errNotFound, localPolicy⟩ svc1
            (initialState ())).2) :=
  C10_retry_is_a_no_op ⟨failingClient errNotFound, localPolicy⟩ convertOk svc1 svc1
    (initialState ()) errNotFound rfl rfl (by decide) rfl (by decide)

/-! ## The queue when every work item succeeds -/

theorem Queue.Run_success {σ : Type} (Inv : State σ → Prop) (q : Queue σ) :
    (∀ task ∈ q, ∀ st, Inv st → (task st).1 = none ∧ Inv (task st).2) →
    ∀ st, Inv st → ∀ n, q.length ≤ n →
      Queue.Run n q st = (List.replicate q.length none, [], runEach q st) ∧
        Inv (runEach q st) := by
  induction q with
  | nil =>
    intro _ st hinv n _
    exact ⟨by simp [Queue.Run_nil, runEach], by simpa [runEach] using hinv⟩
  | cons task rest ih =>
    intro hq st hinv n hn
    obtain ⟨m, rfl⟩ : ∃ m, n = m + 1 := ⟨n - 1, by simp at hn; omega⟩
    obtain ⟨h1, h2⟩ := hq task (List.mem_cons_self _ _) st hinv
    have hrest := ih (fun t ht => hq t (List.mem_cons_of_mem _ ht)) (task st).2 h2 m
      (by simp at hn; omega)
    have hpair : task st = (none, (task st).2) := by
      rw [← h1]
    refine ⟨?_, by simpa [runEach] using hrest.2⟩
    rw [Queue.Run, hpair]
    simp only [hrest.1, List.length_cons, List.replicate_succ]
    rfl

theorem foldl_notify {σ Obj : Type} (sc : ServiceExportController σ)
    (convertToService : Obj → Except GoError Service) (obj : Obj) (notes : List Notification) :
    ∀ q : Queue σ, notes.foldl (notify sc convertToService obj) q
      = q ++ notes.map (Notification.task sc convertToService obj) := by
  induction notes with
  | nil => intro q; simp
  | cons note rest ih =>
    intro q
    rw [List.foldl_cons, ih]
    cases note <;>
      simp [notify, onServiceAdd, onServiceDelete, Queue.Push, Notification.task]

theorem doInitialFullSync_eq {σ Obj : Type} (sc : ServiceExportController σ)
    (convertToService : Obj → Except GoError Service) (services : List Obj) :
    ∀ q : Queue σ, doInitialFullSync sc convertToService services q
      = q ++ services.map (newServiceTask sc convertToService) := by
  induction services with
  | nil => intro q; simp [doInitialFullSync]
  | cons obj rest ih =>
    intro q
    have h := ih (onServiceAdd sc convertToService q obj)
    simp only [doInitialFullSync] at h ⊢
    rw [List.foldl_cons, h]
    simp [onServiceAdd, Queue.Push]

/-! ## Convergence for one identity -/

theorem count_one_of_mem_nodup {α : Type} [BEq α] [LawfulBEq α] {a : α} {l : List α}
    (hnodup : l.Nodup) (hmem : a ∈ l) : l.count a = 1 := by
  induction l with
  | nil => cases hmem
  | cons b t ih =>
    rw [List.nodup_cons] at hnodup
    by_cases hab : b = a
    · subst hab
      simp [List.count_cons, List.count_eq_zero_of_not_mem hnodup.1]
    · have hmem2 : a ∈ t := by
        rcases List.mem_cons.1 hmem with h | h
        · exact absurd h.symm hab
        · exact h
      simp [List.count_cons, ih hnodup.2 hmem2, hab]

theorem keyedStore_add (policy : Service → Bool) (service : Service) (st : State (List Key))
    (hlocal : policy service = false) (hgate : st.crdExists = true)
    (hnodup : st.store.Nodup) :
    (handleNewService ⟨keyedStore, policy⟩ service st).1 = none ∧
      ((handleNewService ⟨keyedStore, policy⟩ service st).2.crdExists = true ∧
        (handleNewService ⟨keyedStore, policy⟩ service st).2.store.Nodup) ∧
      (service.Namespace, service.Name)
        ∈ (handleNewService ⟨keyedStore, policy⟩ service st).2.store := by
  rw [handleNewService_open ⟨keyedStore, policy⟩ service st hgate hlocal]
  by_cases hmem : (service.Namespace, service.Name) ∈ st.store
  · simp [createServiceExportIfNotPresent, keyedStore, hmem, IsAlreadyExists, ReasonForError,
      hgate, hnodup]
  · simp [createServiceExportIfNotPresent, keyedStore, hmem, hgate]
    exact List.Nodup.append hnodup (List.nodup_singleton _) (by simpa using hmem)

theorem keyedStore_delete (policy : Service → Bool) (service : Service)
    (st : State (List Key)) (hgate : st.crdExists = true) (hnodup : st.store.Nodup) :
    (handleDeletedService ⟨keyedStore, policy⟩ service st).1 = none ∧
      ((handleDeletedService ⟨keyedStore, policy⟩ service st).2.crdExists = true ∧
        (handleDeletedService ⟨keyedStore, policy⟩ service st).2.store.Nodup) ∧
      (service.Namespace, service.Name)
        ∉ (handleDeletedService ⟨keyedStore, policy⟩ service st).2.store := by
  by_cases hmem : (service.Namespace, service.Name) ∈ st.store
  · simp [handleDeletedService, deleteServiceExportIfPresent, keyedStore, hmem, hgate]
    exact hnodup.filter _
  · simp [handleDeletedService, deleteServiceExportIfPresent, keyedStore, hmem, hgate,
      IsNotFound, ReasonForError, hnodup]

theorem keyedStore_task {Obj : Type} (policy : Service → Bool)
    (convertToService : Obj → Except GoError Service) (obj : Obj) (service : Service)
    (hconv : convertToService obj = .ok service) (hlocal : policy service = false)
    (note : Notification) (st : State (List Key))
    (hinv : st.crdExists = true ∧ st.store.Nodup) :
    (note.task ⟨keyedStore, policy⟩ convertToService obj st).1 = none ∧
      ((note.task ⟨keyedStore, policy⟩ convertToService obj st).2.crdExists = true ∧
        (note.task ⟨keyedStore, policy⟩ convertToService obj st).2.store.Nodup) ∧
      ((service.Namespace, service.Name)
          ∈ (note.task ⟨keyedStore, policy⟩ convertToService obj st).2.store
        ↔ note = .added) := by
  cases note with
  | added =>
    have h := keyedStore_add policy service st hlocal hinv.1 hinv.2
    simp only [Notification.task, newServiceTask, hconv]
    exact ⟨h.1, h.2.1, by simpa using h.2.2⟩
  | deleted =>
    have h := keyedStore_delete policy service st hinv.1 hinv.2
    simp only [Notification.task, deletedServiceTask, hconv]
    exact ⟨h.1, h.2.1, by simpa using h.2.2⟩

/-- Claim C8 (convergence for one identity): for every non-empty list of add and delete
notifications about one object that is a service the policy does not exclude, pushed in order
on the empty queue and run with the gate open against the keyed store (create-if-absent,
delete-if-present, no other failure) starting from any duplicate-free content, the worker,
given at least as many executions as there are items, executes each item once with result
success, empties the queue, and leaves exactly one record with the identity of the service if
the last notification is an add and none if it is a delete. -/
theorem C8_convergence {Obj : Type} (policy : Service → Bool)
    (convertToService : Obj → Except GoError Service) (obj : Obj) (service : Service)
    (hconv : convertToService obj = .ok service) (hlocal : policy service = false)
    (notes : List Notification) (hne : notes ≠ [])
    (st : State (List Key)) (hgate : st.crdExists = true) (hnodup : st.store.Nodup)
    (n : Nat) (hn : notes.length ≤ n) :
    (Queue.Run n (notes.foldl (notify ⟨keyedStore, policy⟩ convertToService obj) []) st).1
        = List.replicate notes.length none ∧
      (Queue.Run n (notes.foldl (notify ⟨keyedStore, policy⟩ convertToService obj) []) st).2.1
        = [] ∧
      (notes.getLast hne = .added →
        (Queue.Run n (notes.foldl (notify ⟨keyedStore, policy⟩ convertToService obj) [])
          st).2.2.store.count (service.Namespace, service.Name) = 1) ∧
      (notes.getLast hne = .deleted →
        (Queue.Run n (notes.foldl (notify ⟨keyedStore, policy⟩ convertToService obj) [])
          st).2.2.store.count (service.Namespace, service.Name) = 0) := by
  have hstep : ∀ (l : List Notification),
      ∀ task ∈ l.map (Notification.task ⟨keyedStore, policy⟩ convertToService obj),
        ∀ s : State (List Key), (s.crdExists = true ∧ s.store.Nodup) →
          (task s).1 = none ∧ ((task s).2.crdExists = true ∧ (task s).2.store.Nodup) := by
    intro l task htask s hs
    obtain ⟨note, -, rfl⟩ := List.mem_map.1 htask
    have h := keyedStore_task policy convertToService obj service hconv hlocal note s hs
    exact ⟨h.1, h.2.1⟩
  rw [foldl_notify, List.nil_append]
  have hrun := Queue.Run_success (fun s : State (List Key) => s.crdExists = true ∧ s.store.Nodup)
    (notes.map (Notification.task ⟨keyedStore, policy⟩ convertToService obj))
    (hstep notes) st ⟨hgate, hnodup⟩ n (by simpa using hn)
  have hinit := Queue.Run_success
    (fun s : State (List Key) => s.crdExists = true ∧ s.store.Nodup)
    (notes.dropLast.map (Notification.task ⟨keyedStore, policy⟩ convertToService obj))
    (hstep notes.dropLast) st ⟨hgate, hnodup⟩ _ (le_refl _)
  have hlast := keyedStore_task policy convertToService obj service hconv hlocal
    (notes.getLast hne) _ hinit.2
  have hsplit : runEach (notes.map (Notification.task ⟨keyedStore, policy⟩ convertToService obj))
      st = ((notes.getLast hne).task ⟨keyedStore, policy⟩ convertToService obj
        (runEach (notes.dropLast.map
          (Notification.task ⟨keyedStore, policy⟩ convertToService obj)) st)).2 := by
    conv_lhs => rw [← List.dropLast_append_getLast hne]
    simp [runEach, List.foldl_append]
  rw [hrun.1]
  simp only [List.length_map, true_and]
  rw [hsplit]
  refine ⟨?_, ?_⟩
  · intro hadd
    exact count_one_of_mem_nodup hlast.2.1.2 (hlast.2.2.2 hadd)
  · intro hdel
    refine List.count_eq_zero_of_not_mem (fun hmem => ?_)
    have := hlast.2.2.1 hmem
    rw [hdel] at this
    exact absurd this (by decide)

/-- Witness of C8: add, add, delete, add for the service (a, svc1) of the scenario, against a
store that already holds a record of another service. -/
theorem C8_convergence_witness :
    (Queue.Run 4 ([Notification.added, .added, .deleted, .added].foldl
          (notify ⟨keyedStore, localPolicy⟩ convertOk svc1) [])
        (initialState [("b", "svc2")])).1 = List.replicate 4 none ∧
      (Queue.Run 4 ([Notification.added, .added, .deleted, .added].foldl
          (notify ⟨keyedStore, localPolicy⟩ convertOk svc1) [])
        (initialState [("b", "svc2")])).2.1 = [] ∧
      ([Notification.added, .added, .deleted, .added].getLast (List.cons_ne_nil _ _)
          = .added →
        (Queue.Run 4 ([Notification.added, .added, .deleted, .added].foldl
            (notify ⟨keyedStore, localPolicy⟩ convertOk svc1) [])
          (initialState [("b", "svc2")])).2.2.store.count (svc1.Namespace, svc1.Name) = 1) ∧
      ([Notification.added, .added, .deleted, .added].getLast (List.cons_ne_nil _ _)
          = .deleted →
        (Queue.Run 4 ([Notification.added, .added, .deleted, .added].foldl
            (notify ⟨keyedStore, localPolicy⟩ convertOk svc1) [])
          (initialState [("b", "svc2")])).2.2.store.count (svc1.Namespace, svc1.Name) = 0) :=
  C8_convergence localPolicy convertOk svc1 svc1 rfl (by decide)
    [.added, .added, .deleted, .added] (List.cons_ne_nil _ _) (initialState [("b", "svc2")])
    rfl (by decide) 4 (by decide)

/-! ## Resync repair -/

theorem accepting_add {σ : Type} (sc : ServiceExportController σ)
    (haccept : ∀ store ns obj, (sc.client.Create store ns obj).1 = none)
    (service : Service) (st : State σ) (hgate : st.crdExists = true) :
    (handleNewService sc service st).1 = none ∧
      (handleNewService sc service st).2.crdExists = true ∧
      (handleNewService sc service st).2.calls
        = st.calls ++ (if sc.IsServiceClusterLocal service then [] else [createCall service]) := by
  cases hlocal : sc.IsServiceClusterLocal service with
  | true => simp [handleNewService, hgate, hlocal]
  | false =>
    rw [handleNewService_open sc service st hgate hlocal]
    simp [createServiceExportIfNotPresent, createCall, haccept, hgate]

theorem accepting_runEach {σ Obj : Type} (sc : ServiceExportController σ)
    (convertToService : Obj → Except GoError Service)
    (haccept : ∀ store ns obj, (sc.client.Create store ns obj).1 = none)
    (snapshot : List Obj) :
    ∀ (services : List Service), snapshot.map convertToService = services.map Except.ok →
    ∀ st : State σ, st.crdExists = true →
      (runEach (snapshot.map (newServiceTask sc convertToService)) st).calls
        = st.calls ++
          (services.filter (fun s => !sc.IsServiceClusterLocal s)).map createCall := by
  induction snapshot with
  | nil =>
    intro services hconv st _
    cases services with
    | nil => simp [runEach]
    | cons _ _ => simp at hconv
  | cons obj rest ih =>
    intro services hconv st hgate
    cases services with
    | nil => simp at hconv
    | cons service others =>
      simp only [List.map_cons, List.cons.injEq] at hconv
      have hadd := accepting_add sc haccept service st hgate
      have htask : newServiceTask sc convertToService obj st = handleNewService sc service st := by
        simp [newServiceTask, hconv.1]
      have hrest := ih others hconv.2 (handleNewService sc service st).2 hadd.2.1
      simp only [runEach, List.map_cons, List.foldl_cons, htask] at hrest ⊢
      rw [hrest, hadd.2.2]
      cases hlocal : sc.IsServiceClusterLocal service <;> simp [List.filter_cons, hlocal]

/-- Claim C9 (resync repair): doInitialFullSync pushes exactly one add work item per listed
object, in order.  When every listed object is a service, the gate is open and the store
accepts every create, the worker, given at least as many executions as there are items,
executes each item once with result success, empties the queue, and the calls it issues are
exactly the create calls of the services the policy does not exclude, one per such service, in
order, each with the (Namespace, Name) of its service; so N such services give N calls. -/
theorem C9_resync_repair {σ Obj : Type} (sc : ServiceExportController σ)
    (convertToService : Obj → Except GoError Service)
    (snapshot : List Obj) (services : List Service)
    (hconv : snapshot.map convertToService = services.map Except.ok)
    (haccept : ∀ store ns obj, (sc.client.Create store ns obj).1 = none)
    (st : State σ) (hgate : st.crdExists = true) (n : Nat) (hn : snapshot.length ≤ n) :
    (∀ q : Queue σ, doInitialFullSync sc convertToService snapshot q
        = q ++ snapshot.map (newServiceTask sc convertToService)) ∧
      (Queue.Run n (doInitialFullSync sc convertToService snapshot []) st).1
        = List.replicate snapshot.length none ∧
      (Queue.Run n (doInitialFullSync sc convertToService snapshot []) st).2.1 = [] ∧
      (Queue.Run n (doInitialFullSync sc convertToService snapshot []) st).2.2.calls
        = st.calls ++
          (services.filter (fun s => !sc.IsServiceClusterLocal s)).map createCall ∧
      (Queue.Run n (doInitialFullSync sc convertToService snapshot []) st).2.2.calls.length
        = st.calls.length + services.countP (fun s => !sc.IsServiceClusterLocal s) := by
  have hstep : ∀ task ∈ snapshot.map (newServiceTask sc convertToService),
      ∀ s : State σ, s.crdExists = true → (task s).1 = none ∧ (task s).2.crdExists = true := by
    intro task htask s hs
    obtain ⟨obj, hobj, rfl⟩ := List.mem_map.1 htask
    have hin : convertToService obj ∈ services.map Except.ok := by
      rw [← hconv]; exact List.mem_map_of_mem _ hobj
    obtain ⟨service, -, hservice⟩ := List.mem_map.1 hin
    have hadd := accepting_add sc haccept service s hs
    simp only [newServiceTask, ← hservice]
    exact ⟨hadd.1, hadd.2.1⟩
  have hrun := Queue.Run_success (fun s : State σ => s.crdExists = true)
    (snapshot.map (newServiceTask sc convertToService)) hstep st hgate n (by simpa using hn)
  have hcalls := accepting_runEach sc convertToService haccept snapshot services hconv st hgate
  refine ⟨doInitialFullSync_eq sc convertToService snapshot, ?_⟩
  rw [doInitialFullSync_eq, List.nil_append, hrun.1]
  simp only [List.length_map, true_and]
  refine ⟨hcalls, ?_⟩
  rw [hcalls, List.length_append, List.length_map, List.countP_eq_length_filter]

/-- Witness of C9: a snapshot of three services, one of them excluded, against the store that
accepts every create. -/
theorem C9_resync_repair_witness :
    (∀ q : Queue Nat, doInitialFullSync ⟨acceptingStore, localPolicy⟩ convertOk
          [svc1, kubeDns, { svc1 with Name := "svc2" }] q
        = q ++ [svc1, kubeDns, { svc1 with Name := "svc2" }].map
            (newServiceTask ⟨acceptingStore, localPolicy⟩ convertOk)) ∧
      (Queue.Run 3 (doInitialFullSync ⟨acceptingStore, localPolicy⟩ convertOk
          [svc1, kubeDns, { svc1 with Name := "svc2" }] []) (initialState 0)).1
        = List.replicate [svc1, kubeDns, { svc1 with Name := "svc2" }].length none ∧
      (Queue.Run 3 (doInitialFullSync ⟨acceptingStore, localPolicy⟩ convertOk
          [svc1, kubeDns, { svc1 with Name := "svc2" }] []) (initialState 0)).2.1 = [] ∧
      (Queue.Run 3 (doInitialFullSync ⟨acceptingStore, localPolicy⟩ convertOk
          [svc1, kubeDns, { svc1 with Name := "svc2" }] []) (initialState 0)).2.2.calls
        = (initialState 0).calls ++
          ([svc1, kubeDns, { svc1 with Name := "svc2" }].filter
            (fun s => !localPolicy s)).map createCall ∧
      (Queue.Run 3 (doInitialFullSync ⟨acceptingStore, localPolicy⟩ convertOk
          [svc1, kubeDns, { svc1 with Name := "svc2" }] []) (initialState 0)).2.2.calls.length
        = (initialState 0).calls.length +
          [svc1, kubeDns, { svc1 with Name := "svc2" }].countP (fun s => !localPolicy s) :=
  C9_resync_repair ⟨acceptingStore, localPolicy⟩ convertOk
    [svc1, kubeDns, { svc1 with Name := "svc2" }] [svc1, kubeDns, { svc1 with Name := "svc2" }]
    rfl (fun _ _ _ => rfl) (initialState 0) rfl 3 (by decide)

end Controller
